import Mathlib

/-!
Shallow embedding of the round-robin discussion orchestrator, document
generators and file analyzer of `src/main.py` (a Streamlit application),
together with theorems settling the frozen specification claims.

Conventions of the embedding:
* Python dicts used as insertion-ordered maps become association lists
  updated in place (`insertContribution`, `insertStat`).
* The OpenAI chat API is a black box: each call either returns text or
  raises; this outcome is an `LLMResult` supplied by an `oracle` argument,
  and `call_openai` (main.py lines 803-819) maps it to the string that the
  Python function returns (the `except` branch yields the literal
  `"OpenAI Error: " ++ e` text instead of raising).
* `datetime.now().strftime(...)` inside the generators becomes an explicit
  `now : String` parameter; it is the only non-input dependency of the generators
  in the source.
* Python string truthiness of the `model` field of a message becomes
  `m.model ≠ ""`.
* Indexing that can raise `IndexError` in Python (`messages[-1]`,
  `messages[0]` in the auto-discussion block) is modelled by returning
  `none` from the step function.
-/

/-- A conversation message as stored in `st.session_state.messages` by
`add_message` (main.py lines 821-829): role, content, and the team tag kept
in the `model` field (empty for user messages).  The source also stores a
display-only wall-clock timestamp that no orchestrator or generator logic
reads; it is omitted here. -/
structure Message where
  role : String
  content : String
  model : String
  deriving DecidableEq, Repr

/-- One entry of the payload sent to the LLM (`context` in main.py lines
2001-2005): role and content only, no team attribution. -/
structure CtxMsg where
  role : String
  content : String
  deriving DecidableEq, Repr

/-- Outcome of one OpenAI chat-completion call: the returned text, or the
text of the exception raised (network, auth, rate limit, ...). -/
inductive LLMResult where
  | ok (text : String)
  | err (e : String)
  deriving DecidableEq, Repr

/-- `call_openai` (main.py lines 803-819): returns the model text on
success; any exception is caught and converted to the literal string
`f"OpenAI Error: {str(e)}"`.  The function never raises. -/
def call_openai (result : LLMResult) : String :=
  match result with
  | .ok text => text
  | .err e => "OpenAI Error: " ++ e

/-- `ai_count` (main.py line 1995):
`len([m for m in st.session_state.messages if m["model"]])` —
the number of messages whose team tag is non-empty. -/
def aiCount (messages : List Message) : Nat :=
  (messages.filter (fun m => m.model != "")).length

/-- Context construction (main.py lines 2001-2005): the first message is
replayed with role `user`; every later message with a non-empty team tag is
replayed with role `assistant` and its content only.  The source indexes
`messages[0]` unconditionally, so the head is a separate argument here. -/
def buildContext (m0 : Message) (rest : List Message) : List CtxMsg :=
  rest.foldl
    (fun acc msg =>
      if msg.model != "" then acc ++ [⟨"assistant", msg.content⟩] else acc)
    [⟨"user", m0.content⟩]

/-- `available_teams` (main.py line 1801): the fixed 7-name team catalog
offered by the sidebar multiselect. -/
def available_teams : List String :=
  ["Frontend Dev", "Backend Dev", "Database Expert", "Security Specialist",
   "AI Engineer", "Project Manager", "DevOps Engineer"]

/-- `team_base_prompts` lookup (main.py lines 2011-2056): the fixed role
template of the chosen team, branching on whether an uploaded document is
present; unknown teams get the generic fallback prompt. -/
def team_base_prompts (next_team : String) (is_file_content : Bool) : String :=
  match next_team with
  | "Frontend Dev" =>
      "You are " ++ next_team ++ ", a frontend development expert specializing in modern web technologies.\n\n" ++
      (if is_file_content then
        "Analyze the uploaded documentation and provide frontend-specific insights. Consider UI/UX best practices, responsive design, performance optimization, and integration with backend APIs."
      else
        "Provide frontend development expertise for the described project.") ++
      "\n\nFocus on user experience, accessibility, and modern frontend frameworks like React, Vue, or Angular."
  | "Backend Dev" =>
      "You are " ++ next_team ++ ", a backend development expert specializing in server-side technologies.\n\n" ++
      (if is_file_content then
        "Analyze the uploaded documentation and provide backend architecture insights. Consider API design, database integration, security, scalability, and microservices architecture."
      else
        "Provide backend development expertise for the described project.") ++
      "\n\nFocus on robust, scalable, and maintainable server-side solutions."
  | "Database Expert" =>
      "You are " ++ next_team ++ ", a database and data architecture specialist.\n\n" ++
      (if is_file_content then
        "Analyze the uploaded documentation and provide database design insights. Consider data modeling, performance optimization, security, and scalability requirements."
      else
        "Provide database design expertise for the described project.") ++
      "\n\nFocus on efficient data storage, retrieval, and management solutions."
  | "Security Specialist" =>
      "You are " ++ next_team ++ ", a cybersecurity and application security expert.\n\n" ++
      (if is_file_content then
        "Analyze the uploaded documentation and identify security vulnerabilities, risks, and compliance requirements. Provide security best practices and implementation recommendations."
      else
        "Provide security expertise for the described project.") ++
      "\n\nFocus on secure coding practices, authentication, authorization, and data protection."
  | "AI Engineer" =>
      "You are " ++ next_team ++ ", an AI/ML engineering specialist.\n\n" ++
      (if is_file_content then
        "Analyze the uploaded documentation and identify opportunities for AI/ML integration. Consider machine learning models, data processing pipelines, and AI-powered features."
      else
        "Provide AI/ML engineering expertise for the described project.") ++
      "\n\nFocus on intelligent features, automation, and data-driven solutions."
  | "Project Manager" =>
      "You are " ++ next_team ++ ", a project management and coordination specialist overseeing the entire development process.\n\n" ++
      (if is_file_content then
        "Analyze the uploaded documentation and provide project management insights. Coordinate between different teams, manage timelines, identify dependencies, and ensure project success."
      else
        "Provide project management expertise for the described project.") ++
      "\n\nFocus on project planning, team coordination, risk management, and delivery milestones."
  | "DevOps Engineer" =>
      "You are " ++ next_team ++ ", a DevOps and infrastructure specialist focusing on deployment, automation, and system reliability.\n\n" ++
      (if is_file_content then
        "Analyze the uploaded documentation and provide DevOps insights. Consider CI/CD pipelines, containerization, monitoring, scalability, and infrastructure automation."
      else
        "Provide DevOps engineering expertise for the described project.") ++
      "\n\nFocus on deployment automation, infrastructure as code, monitoring, and operational excellence."
  | _ =>
      "You are " ++ next_team ++ ", an expert in your field. Provide valuable insights for this project."

/-- Discussion-style suffix (main.py lines 2059-2066): each of the four
recognized styles appends one fixed directive; anything else appends
nothing. -/
def styleSuffix (discussion_style : String) : String :=
  if discussion_style = "Collaborative" then
    "\n\nApproach this collaboratively, building on previous suggestions and finding common ground between different perspectives."
  else if discussion_style = "Debate" then
    "\n\nApproach this as a constructive debate, presenting well-reasoned arguments and considering alternative viewpoints."
  else if discussion_style = "Technical Review" then
    "\n\nConduct a thorough technical review, focusing on best practices, potential issues, and optimization opportunities."
  else if discussion_style = "Creative Brainstorm" then
    "\n\nBrainstorm creative and innovative solutions, thinking outside the box while maintaining technical feasibility."
  else
    ""

/-- Full system prompt of one turn (main.py lines 2056-2066): role template
of the speaking team followed by the style suffix. -/
def systemPromptFor (next_team : String) (is_file : Bool) (style : String) : String :=
  team_base_prompts next_team is_file ++ styleSuffix style

/-- Transient per-session discussion state: the ordered message list
(`st.session_state.messages`) and the `discussion_active` flag. -/
structure DiscState where
  messages : List Message
  active : Bool
  deriving DecidableEq, Repr

/-- One pass of the auto-discussion block (main.py lines 1994-2109),
executed per Streamlit rerun while `discussion_active` and a team list are
present.  If the assistant count is below `max_rounds * len(teams)` the next
speaker is `teams[ai_count % len(teams)]`; the LLM is called with the
replayed context and the composed system prompt, and the outcome (success
text or `call_openai` error text) is appended as an assistant message tagged
with that team.  Otherwise the discussion is marked complete
(`discussion_active = False`, line 2109).  The source reads `messages[-1]`
(line 1997) and `messages[0]` (line 2002) inside the in-progress branch, so
an empty message list raises `IndexError` there: modelled by `none`. -/
def autoStep (teams : List String) (max_rounds : Nat) (is_file : Bool)
    (style : String) (oracle : List CtxMsg → String → LLMResult)
    (s : DiscState) : Option DiscState :=
  if s.active && !teams.isEmpty then
    if aiCount s.messages < max_rounds * teams.length then
      match s.messages with
      | [] => none
      | m0 :: rest =>
        let team_index := aiCount (m0 :: rest) % teams.length
        let next_team := teams.getD team_index ""
        let context := buildContext m0 rest
        let system_prompt := systemPromptFor next_team is_file style
        let response := call_openai (oracle context system_prompt)
        some ⟨(m0 :: rest) ++ [⟨"assistant", response, next_team⟩], s.active⟩
    else
      some ⟨s.messages, false⟩
  else
    some s

/-- Iterated auto-discussion passes (the source loops by issuing
`st.rerun()` after each turn, line 2077). -/
def runSteps (teams : List String) (max_rounds : Nat) (is_file : Bool)
    (style : String) (oracle : List CtxMsg → String → LLMResult) :
    Nat → DiscState → Option DiscState
  | 0, s => some s
  | n + 1, s =>
    match autoStep teams max_rounds is_file style oracle s with
    | some s2 => runSteps teams max_rounds is_file style oracle n s2
    | none => none

/-- The Start Discussion handler (main.py lines 1942-1977).  When content,
an OpenAI client, a non-empty team list and the word limits all check out,
`discussion_active` is set to `True` unconditionally; the initial user
message is appended only when `save_conversation_to_db` returned a
conversation id (`persist_ok`).  On persistence failure an error is shown
but the state stays active with no message appended. -/
def startDiscussion (has_content has_openai : Bool) (teams : List String)
    (word_limit_ok : Bool) (persist_ok : Bool) (project_content : String)
    (s : DiscState) : DiscState :=
  if has_content && has_openai && !teams.isEmpty && word_limit_ok then
    { active := true
      messages :=
        if persist_ok then s.messages ++ [⟨"user", project_content, ""⟩]
        else s.messages }
  else
    s
/-- The objectives section shared by all three generators (main.py lines
878-880, 962-964, 1203-1205): the verbatim content of message 0 followed
by a blank line, emitted only when the list is non-empty and message 0 has
role `user`; otherwise nothing. -/
def objectivesOf (messages : List Message) : String :=
  match messages with
  | m0 :: _ => if m0.role = "user" then m0.content ++ "\n\n" else ""
  | [] => ""

/-- Python dict insertion-order update used to group contributions by team
(main.py lines 885-891): an existing key has the content appended to its
list in place; a new key is appended at the end, so key order is
first-appearance order. -/
def insertContribution : List (String × List String) → String → String →
    List (String × List String)
  | [], team, content => [(team, [content])]
  | (t, cs) :: rest, team, content =>
    if t = team then (t, cs ++ [content]) :: rest
    else (t, cs) :: insertContribution rest team content

/-- `team_contributions` (main.py lines 885-891): assistant messages after
message 0 grouped by team tag, in insertion order. -/
def team_contributions (messages : List Message) : List (String × List String) :=
  (messages.drop 1).foldl
    (fun acc msg =>
      if msg.model != "" then insertContribution acc msg.model msg.content
      else acc)
    []

/-- Rendering of the contribution list of one team (main.py lines 896-899):
numbered from 1 via `enumerate(contributions, 1)`.  The source also
computes a `clean_contribution` with asterisks stripped but never uses it;
the emitted text is the raw contribution. -/
def renderContributions (contributions : List String) : String :=
  String.join ((List.enumFrom 1 contributions).map
    (fun ic => "#### Contribution " ++ toString ic.1 ++ "\n" ++ ic.2 ++ "\n\n"))

/-- The per-team analysis sections of the specification document
(main.py lines 894-899), one per grouped team in insertion order. -/
def teamAnalysisSections (messages : List Message) : String :=
  String.join ((team_contributions messages).map
    (fun p => "### 🔧 " ++ p.1 ++ " Analysis\n\n" ++ renderContributions p.2))

/-- Fixed implementation-guidelines / next-steps boilerplate of the
specification document (main.py lines 901-944). -/
def projectMdFooter : String :=
  "## 📚 Implementation Guidelines\n\n### 🏗️ Architecture Recommendations\n- Follow modular design principles\n- Implement proper error handling\n- Use appropriate design patterns\n- Consider scalability from the start\n\n### 🔒 Security Considerations\n- Implement authentication and authorization\n- Use secure coding practices\n- Regular security audits\n- Data encryption where necessary\n\n### 🚀 Performance Optimization\n- Optimize database queries\n- Implement caching strategies\n- Use CDN for static assets\n- Monitor and profile application performance\n\n### 🧪 Testing Strategy\n- Unit tests for all components\n- Integration tests for API endpoints\n- End-to-end testing for critical workflows\n- Performance testing\n\n### 📦 Deployment & DevOps\n- CI/CD pipeline implementation\n- Containerization with Docker\n- Infrastructure as Code\n- Monitoring and logging\n\n## 🎯 Next Steps\n\n1. **Review and Approval**: All team leads should review this specification\n2. **Architecture Design**: Create detailed system architecture diagrams\n3. **Technology Stack Finalization**: Confirm all technology choices\n4. **Development Timeline**: Create detailed project timeline\n5. **Resource Allocation**: Assign team members to specific tasks\n\n---\n\n*This document was generated by AI Discussion Manager - An intelligent collaborative development tool*\n"

/-- `generate_project_md_file` (main.py lines 862-946) with the
`datetime.now()` header timestamp made an explicit `now` argument. -/
def generate_project_md_file (messages : List Message) (project_title : String)
    (teams : List String) (now : String) : String :=
  "# " ++ project_title ++ "\n\n## 📋 Project Overview\n\n**Generated on:** " ++ now ++
  "\n**Teams Involved:** " ++ String.intercalate ", " teams ++
  "\n**Status:** Active Development\n\n---\n\n## 🎯 Project Goals & Requirements\n\n" ++
  objectivesOf messages ++
  "## 👥 Team Analysis & Recommendations\n\n" ++
  teamAnalysisSections messages ++
  projectMdFooter

/-- Fixed technology-stack / workflow boilerplate of the Cursor IDE guide
(main.py lines 966-1060), ending with the Team-Specific Guidelines
heading. -/
def cursorMiddle : String :=
  "## 🛠️ Technology Stack & Best Practices\n\n### Frontend Development\n```javascript\n// Modern React/Vue/Angular patterns\n- Use functional components with hooks\n- Implement TypeScript for type safety\n- Follow component composition patterns\n- Use CSS-in-JS or utility-first CSS frameworks\n- Implement responsive design principles\n```\n\n### Backend Development\n```python\n# Python/Node.js/Java backend patterns\n- Follow RESTful API design principles\n- Implement proper error handling and logging\n- Use async/await for asynchronous operations\n- Implement data validation and sanitization\n- Use environment variables for configuration\n```\n\n### Database Design\n```sql\n-- Database best practices\n- Use proper indexing strategies\n- Implement foreign key relationships\n- Use transactions for data consistency\n- Implement database migrations\n- Regular backup and recovery procedures\n```\n\n## 🤖 AI-Assisted Development Guidelines\n\n### Code Generation Prompts\n```\n\"Create a REST API endpoint for user authentication with JWT tokens\"\n\"Generate a React component for data visualization with error handling\"\n\"Create database models with relationships and validation\"\n\"Implement middleware for request logging and error handling\"\n```\n\n### Code Review Prompts\n```\n\"Review this code for security vulnerabilities\"\n\"Optimize this database query for better performance\"\n\"Refactor this component for better maintainability\"\n\"Suggest improvements for error handling\"\n```\n\n### Testing Prompts\n```\n\"Generate unit tests for this function\"\n\"Create integration tests for this API endpoint\"\n\"Write end-to-end test scenarios\"\n\"Generate mock data for testing\"\n```\n\n## 🔧 Development Workflow\n\n### 1. Feature Development\n```bash\n# Standard workflow\n1. Create feature branch\n2. Implement feature with tests\n3. Code review and AI-assisted improvements\n4. Merge to main branch\n```\n\n### 2. Code Quality Checks\n```javascript\n// ESLint configuration\n\x7b\n  \"extends\": [\"eslint:recommended\", \"@typescript-eslint/recommended\"],\n  \"parser\": \"@typescript-eslint/parser\",\n  \"rules\": \x7b\n    \"no-unused-vars\": \"error\",\n    \"prefer-const\": \"error\",\n    \"no-console\": \"warn\"\n  \x7d\n\x7d\n```\n\n### 3. Performance Optimization\n```javascript\n// Performance monitoring\n- Use React DevTools for component analysis\n- Implement lazy loading for routes\n- Optimize bundle size with code splitting\n- Use service workers for caching\n```\n\n## 📚 Team-Specific Guidelines\n\n"

/-- `team_guidelines` (main.py lines 1063-1111): fixed guideline block per
team name; note there is no entry for "DevOps Engineer", so that team is
silently omitted from the guide. -/
def team_guidelines (team : String) : Option String :=
  match team with
  | "Frontend Dev" => some "\n### 🎨 Frontend Guidelines\n- Prioritize user experience and accessibility\n- Use semantic HTML and ARIA attributes\n- Implement responsive design with mobile-first approach\n- Optimize for Core Web Vitals metrics\n- Use modern CSS features and animations judiciously"
  | "Backend Dev" => some "\n### ⚙️ Backend Guidelines\n- Implement proper API versioning\n- Use middleware for cross-cutting concerns\n- Implement rate limiting and request validation\n- Use connection pooling for database operations\n- Implement proper logging and monitoring"
  | "Database Expert" => some "\n### 🗄️ Database Guidelines\n- Design normalized database schemas\n- Implement proper indexing strategies\n- Use database transactions for data consistency\n- Implement database connection pooling\n- Regular database maintenance and optimization"
  | "Security Specialist" => some "\n### 🔒 Security Guidelines\n- Implement input validation and sanitization\n- Use parameterized queries to prevent SQL injection\n- Implement proper authentication and authorization\n- Regular security audits and penetration testing\n- Keep dependencies updated and monitor vulnerabilities"
  | "AI Engineer" => some "\n### 🤖 AI/ML Guidelines\n- Implement proper data preprocessing pipelines\n- Use version control for ML models\n- Implement model validation and testing\n- Monitor model performance and drift\n- Document model decisions and limitations"
  | "Project Manager" => some "\n### 📊 Project Management Guidelines\n- Maintain clear project documentation\n- Regular progress updates and status reports\n- Risk assessment and mitigation planning\n- Stakeholder communication and management\n- Quality assurance and testing coordination"
  | _ => none

/-- The guideline loop (main.py lines 1113-1115): each selected team with a
matching guideline entry contributes its block plus a blank line. -/
def teamGuidelinesSection (teams : List String) : String :=
  String.join (teams.map (fun t =>
    match team_guidelines t with
    | some g => g ++ "\n\n"
    | none => ""))

/-- Fixed deployment / documentation-standards boilerplate of the Cursor
IDE guide (main.py lines 1117-1182). -/
def cursorFooter : String :=
  "## 🚀 Deployment & Production\n\n### Environment Setup\n```bash\n# Production environment variables\nNODE_ENV=production\nDATABASE_URL=production_database_url\nREDIS_URL=production_redis_url\nJWT_SECRET=secure_random_secret\n```\n\n### Monitoring & Logging\n```javascript\n// Application monitoring\n- Implement health check endpoints\n- Set up error tracking (Sentry, Bugsnag)\n- Configure application metrics (Prometheus, Grafana)\n- Set up log aggregation (ELK stack)\n```\n\n### Performance Optimization\n```javascript\n// Production optimizations\n- Enable gzip compression\n- Implement CDN for static assets\n- Configure database connection pooling\n- Set up horizontal scaling if needed\n```\n\n## 📝 Code Documentation Standards\n\n### JSDoc Comments\n```javascript\n/**\n * User authentication function\n * @param \x7bstring\x7d username - User\x27s username\n * @param \x7bstring\x7d password - User\x27s password\n * @returns \x7bPromise<Object>\x7d Authentication result\n */\nasync function authenticateUser(username, password) \x7b\n  // Implementation\n\x7d\n```\n\n### README Files\n```markdown\n# Project Name\n\n## Setup Instructions\n## API Documentation\n## Development Guidelines\n## Deployment Instructions\n```\n\n## 🎯 Success Metrics\n\n- **Code Quality**: Maintain high test coverage (>80%)\n- **Performance**: Response times <200ms for API calls\n- **Security**: Zero critical vulnerabilities\n- **User Experience**: High user satisfaction scores\n- **Maintainability**: Clean, well-documented code\n\n---\n\n*This prompt file was generated by AI Discussion Manager to guide Cursor IDE development*\n"

/-- `generate_cursor_prompt_file` (main.py lines 948-1184) with the header
timestamp made an explicit `now` argument. -/
def generate_cursor_prompt_file (messages : List Message)
    (project_title : String) (teams : List String) (now : String) : String :=
  "# Cursor IDE Development Guidelines for " ++ project_title ++ "\n\n## 📋 Project Context\n\n**Project:** " ++ project_title ++ "\n**Generated:** " ++ now ++
  "\n**Teams:** " ++ String.intercalate ", " teams ++ "\n\n## 🎯 Development Objectives\n\n" ++
  objectivesOf messages ++
  cursorMiddle ++
  teamGuidelinesSection teams ++
  cursorFooter

/-- Python dict insertion-order update for the per-team statistics
(main.py lines 1210-1217): contribution count and total character count
of the messages of a team. -/
def insertStat : List (String × Nat × Nat) → String → Nat →
    List (String × Nat × Nat)
  | [], team, chars => [(team, 1, chars)]
  | (t, c, ch) :: rest, team, chars =>
    if t = team then (t, c + 1, ch + chars) :: rest
    else (t, c, ch) :: insertStat rest team chars

/-- `team_stats` (main.py lines 1210-1217): per-team (count, total chars)
over the tagged messages after message 0, in first-appearance order. -/
def team_stats (messages : List Message) : List (String × Nat × Nat) :=
  (messages.drop 1).foldl
    (fun acc msg =>
      if msg.model != "" then insertStat acc msg.model msg.content.length
      else acc)
    []

/-- The per-team statistics sections (main.py lines 1219-1222). -/
def teamStatsSections (messages : List Message) : String :=
  String.join ((team_stats messages).map
    (fun p => "### " ++ p.1 ++ "\n" ++
      "- **Contributions:** " ++ toString p.2.1 ++ " responses\n" ++
      "- **Content Volume:** " ++ toString p.2.2 ++ " characters\n\n"))

/-- Fixed findings / roadmap boilerplate of the manager summary
(main.py lines 1224-1273), ending with the Team Composition heading. -/
def managerMiddle : String :=
  "## 🔍 Key Findings & Recommendations\n\n### ✅ Strengths Identified\n- Comprehensive technical analysis across all domains\n- Collaborative approach with diverse expertise\n- Detailed implementation recommendations\n- Security and performance considerations addressed\n\n### ⚠️ Potential Challenges\n- Integration complexity between different components\n- Timeline management for comprehensive implementation\n- Resource allocation across multiple specialties\n- Technology stack compatibility and learning curves\n\n### 🎯 Critical Success Factors\n1. **Clear Communication**: Regular team standups and progress updates\n2. **Modular Architecture**: Well-defined interfaces between components\n3. **Quality Assurance**: Comprehensive testing strategy\n4. **Documentation**: Maintain up-to-date technical documentation\n\n## 📋 Implementation Roadmap\n\n### Phase 1: Foundation (Weeks 1-2)\n- [ ] Requirements finalization and approval\n- [ ] Technology stack confirmation\n- [ ] Development environment setup\n- [ ] Initial project structure creation\n\n### Phase 2: Core Development (Weeks 3-6)\n- [ ] Database design and implementation\n- [ ] Backend API development\n- [ ] Frontend component development\n- [ ] Integration testing\n\n### Phase 3: Enhancement & Testing (Weeks 7-8)\n- [ ] Security implementation and testing\n- [ ] Performance optimization\n- [ ] User acceptance testing\n- [ ] Documentation completion\n\n### Phase 4: Deployment & Launch (Week 9)\n- [ ] Production environment setup\n- [ ] Data migration and testing\n- [ ] User training and documentation\n- [ ] Go-live and monitoring\n\n## 💰 Resource Requirements\n\n### Team Composition\n"

/-- The team-composition checklist (main.py lines 1275-1276). -/
def managerChecklist (teams : List String) : String :=
  String.join (teams.map (fun t => "- [ ] " ++ t ++ "\n"))

/-- Fixed infrastructure / risk / metrics boilerplate of the manager
summary (main.py lines 1278-1343). -/
def managerFooter : String :=
  "\n\n### Infrastructure Needs\n- [ ] Development servers and environments\n- [ ] Database servers (development, staging, production)\n- [ ] CI/CD pipeline and tools\n- [ ] Monitoring and logging infrastructure\n- [ ] Security scanning tools\n\n## 📊 Risk Assessment\n\n### High Risk Items\n- **Technology Integration**: Complex integration between multiple technologies\n- **Timeline Pressure**: Aggressive development timeline\n- **Resource Availability**: Specialist availability and expertise\n\n### Mitigation Strategies\n- **Prototype Early**: Create proof-of-concept for critical integrations\n- **Agile Methodology**: Regular iterations with stakeholder feedback\n- **Knowledge Transfer**: Document critical processes and decisions\n- **Contingency Planning**: Identify backup approaches for high-risk items\n\n## 🎯 Success Metrics\n\n### Technical Metrics\n- [ ] Code coverage > 80%\n- [ ] Performance benchmarks met (response time < 200ms)\n- [ ] Security scan results - zero critical vulnerabilities\n- [ ] System uptime > 99.9%\n\n### Business Metrics\n- [ ] User adoption rate within first month\n- [ ] Stakeholder satisfaction survey results\n- [ ] Feature utilization analytics\n- [ ] Return on investment projections\n\n## 📞 Next Steps & Action Items\n\n### Immediate Actions (Next 24-48 hours)\n1. Schedule project kickoff meeting with all stakeholders\n2. Confirm team availability and resource allocation\n3. Set up development environments and access\n4. Create initial project timeline and milestones\n\n### Short-term Goals (Next 1-2 weeks)\n1. Finalize detailed technical specifications\n2. Complete technology stack evaluation\n3. Establish coding standards and guidelines\n4. Set up project management tools and processes\n\n### Communication Plan\n- **Daily Standups**: Technical team coordination\n- **Weekly Updates**: Stakeholder progress reports\n- **Monthly Reviews**: Executive summary and adjustments\n- **Ad-hoc**: Critical issues and blocker resolution\n\n---\n\n## 📞 Contact & Support\n\n**Project Manager:** AI Discussion Manager System\n**Technical Lead:** Development Team\n**Stakeholder Contact:** Project Sponsors\n\n*This summary was generated by AI Discussion Manager for comprehensive project oversight and coordination.*\n"

/-- `generate_manager_summary` (main.py lines 1186-1345) with the header
timestamp made an explicit `now` argument. -/
def generate_manager_summary (messages : List Message)
    (project_title : String) (teams : List String) (now : String) : String :=
  "# 📊 Project Manager Summary: " ++ project_title ++ "\n\n## 📅 Executive Summary\n\n**Project:** " ++ project_title ++ "\n**Date:** " ++ now ++
  "\n**Status:** Analysis Complete\n**Team Size:** " ++ toString teams.length ++ " specialists\n\n---\n\n## 🎯 Project Objectives & Scope\n\n" ++
  objectivesOf messages ++
  "## 👥 Team Contributions Overview\n\n" ++
  teamStatsSections messages ++
  managerMiddle ++
  managerChecklist teams ++
  managerFooter

/-- `generate_all_files` (main.py lines 1347-1379): requires an active
conversation id; renders the three documents, derives each filename from the
title by replacing spaces with underscores plus a fixed suffix, saves each
via `save_generated_file_to_db` (outcome supplied by `save_ok`, indexed in
call order), and collects `(file_type, file_name, file_content)` tuples for
the saves that succeeded.  The file-type tags written are `markdown` for the
specification, `cursor_guide` for the Cursor guide, and `markdown` again for
the manager summary. -/
def generate_all_files (has_conversation : Bool) (save_ok : Nat → Bool)
    (messages : List Message) (project_title : String) (teams : List String)
    (now : String) : Option (List (String × String × String)) :=
  if !has_conversation then
    none
  else
    let md_content := generate_project_md_file messages project_title teams now
    let md_filename := project_title.replace " " "_" ++ "_Specification.md"
    let files1 :=
      if save_ok 0 then [("markdown", md_filename, md_content)] else []
    let cursor_content :=
      generate_cursor_prompt_file messages project_title teams now
    let cursor_filename := project_title.replace " " "_" ++ "_Cursor_Prompts.md"
    let files2 := files1 ++
      (if save_ok 1 then [("cursor_guide", cursor_filename, cursor_content)]
       else [])
    let manager_content :=
      generate_manager_summary messages project_title teams now
    let manager_filename :=
      project_title.replace " " "_" ++ "_Manager_Summary.md"
    some (files2 ++
      (if save_ok 2 then [("markdown", manager_filename, manager_content)]
       else []))

/-- Project-type classification at the end of `analyze_folder_structure`
(main.py lines 303-310), taking the per-language file tallies and the total
file count produced by the directory walk.  The source compares
`count > total_files * 0.3` in floating point; since `0.3` rounds to a
double a hair below `3 / 10` and the products of interest stay far below
`2 ^ 52`, that comparison agrees with the exact rational comparison
`10 * count > 3 * total_files` used here. -/
def determineProjectType (languages : String → Nat) (total_files : Nat) :
    String :=
  if 10 * languages "python" > 3 * total_files then "python"
  else if 10 * languages "javascript" > 3 * total_files then "javascript"
  else if 10 * languages "java" > 3 * total_files then "java"
  else "unknown"

/-- The fixed priority order in which `analyze_folder_structure` checks
languages for the 30 percent majority, written as the spec describes it:
first language exceeding the threshold wins, default `unknown`. -/
def projectTypeSpec (languages : String → Nat) (total_files : Nat) : String :=
  (["python", "javascript", "java"].find?
    (fun l => 10 * languages l > 3 * total_files)).getD "unknown"

/-- The `\w` character class of the Python `re` module, restricted to ASCII
(the analyzed patterns only involve ASCII keywords; the universal claims
proved below do not depend on the class width). -/
def isWordChar (c : Char) : Bool :=
  c.isAlphanum || c = '_'

/-- The `\s` character class (space, tab, newline, carriage return). -/
def isSpaceChar (c : Char) : Bool :=
  c.isWhitespace

/-- Match a literal string at the head of the input, returning the rest. -/
def dropLit : List Char → List Char → Option (List Char)
  | [], s => some s
  | _ :: _, [] => none
  | k :: ks, c :: cs => if k = c then dropLit ks cs else none

/-- Match `kw` followed by `\s+\w+` (the shape of the patterns
`def\s+\w+` and `function\s+\w+` in `calculate_complexity`, main.py line
235) at the head of the input; on success return the rest after the
greedily matched word, which is where `re.findall` resumes.  Greedy
matching is exact here because the `\s` and `\w` classes are disjoint. -/
def matchKwFuncAt (kw : List Char) (s : List Char) : Option (List Char) :=
  match dropLit kw s with
  | none => none
  | some r1 =>
    match r1.takeWhile isSpaceChar with
    | [] => none
    | _ :: _ =>
      let r2 := r1.dropWhile isSpaceChar
      match r2.takeWhile isWordChar with
      | [] => none
      | _ :: _ => some (r2.dropWhile isWordChar)

/-- The scanning loop of `re.findall` restricted to counting matches: try
the matcher at each position, resume after the end of a match, advance one
character on failure.  `fuel` bounds the recursion; callers pass
`length + 1`, enough to visit every position. -/
def findallCount (matchAt : List Char → Option (List Char)) :
    Nat → List Char → Nat
  | 0, _ => 0
  | _ + 1, [] => 0
  | fuel + 1, c :: t =>
    match matchAt (c :: t) with
    | some rest => 1 + findallCount matchAt fuel rest
    | none => findallCount matchAt fuel t

/-- The function term of `calculate_complexity` (main.py line 235):
`len(re.findall(PAT, content))` where PAT is `def\s+\w+` when the
language is python and `function\s+\w+` otherwise. -/
def functionTermCount (content : String) (language : String) : Nat :=
  let kw := if language = "python" then "def" else "function"
  findallCount (matchKwFuncAt kw.data) (content.length + 1) content.data

/-- Match `(for|while|if)\s*\(` (main.py line 236) at the head of the
input: alternatives tried in order with full continuation, as the Python
engine does. -/
def matchLoopAt (s : List Char) : Option (List Char) :=
  let tryKw := fun (kw : String) =>
    match dropLit kw.data s with
    | none => none
    | some r1 =>
      match r1.dropWhile isSpaceChar with
      | '(' :: r2 => some r2
      | _ => none
  match tryKw "for" with
  | some r => some r
  | none =>
    match tryKw "while" with
    | some r => some r
    | none => tryKw "if"

/-- The loop/conditional term of `calculate_complexity` (main.py line
236). -/
def loopTermCount (content : String) : Nat :=
  findallCount matchLoopAt (content.length + 1) content.data

/-- `calculate_complexity` (main.py lines 232-244): function matches plus
loop/conditional matches plus `lines // 50`, bucketed into
simple / moderate / complex. -/
def calculate_complexity (content : String) (language : String) : String :=
  let lines := (content.splitOn "\n").length
  let functions := functionTermCount content language
  let loops := loopTermCount content
  let complexity_score := functions + loops + lines / 50
  if complexity_score < 5 then "simple"
  else if complexity_score < 15 then "moderate"
  else "complex"

/-- Match the method pattern of `analyze_java_file` (main.py line 222),
`(?:public|private|protected)?\s*\w+\s+(\w+)\s*\([^)]*\)`, at the head of
the input, returning the captured method name and the rest after the
closing parenthesis.  The optional access modifier is tried in the order
the alternation lists it, then skipped, exactly as the backtracking engine
does; every other piece is a greedy class-atom whose follower set is
disjoint from its class, so maximal munch is exact. -/
def matchJavaFuncAt (s : List Char) : Option (String × List Char) :=
  let tryMod := fun (modifier : String) =>
    match dropLit modifier.data s with
    | none => none
    | some r1 =>
      let r2 := r1.dropWhile isSpaceChar
      match r2.takeWhile isWordChar with
      | [] => none
      | _ :: _ =>
        let r3 := r2.dropWhile isWordChar
        match r3.takeWhile isSpaceChar with
        | [] => none
        | _ :: _ =>
          let r4 := r3.dropWhile isSpaceChar
          match r4.takeWhile isWordChar with
          | [] => none
          | name =>
            let r5 := r4.dropWhile isWordChar
            match r5.dropWhile isSpaceChar with
            | '(' :: r6 =>
              match r6.dropWhile (fun c => c != ')') with
              | ')' :: r7 => some (String.mk name, r7)
              | _ => none
            | _ => none
  match tryMod "public" with
  | some r => some r
  | none =>
    match tryMod "private" with
    | some r => some r
    | none =>
      match tryMod "protected" with
      | some r => some r
      | none => tryMod ""

/-- Match `class\s+(\w+)` (main.py line 223) at the head of the input. -/
def matchJavaClassAt (s : List Char) : Option (String × List Char) :=
  match dropLit "class".data s with
  | none => none
  | some r1 =>
    match r1.takeWhile isSpaceChar with
    | [] => none
    | _ :: _ =>
      let r2 := r1.dropWhile isSpaceChar
      match r2.takeWhile isWordChar with
      | [] => none
      | name => some (String.mk name, r2.dropWhile isWordChar)

/-- Match `import\s+([^;]+);` (main.py line 224) at the head of the input.
Here `\s` and `[^;]` overlap, so the engine backtracks the greedy `\s+`
just far enough to leave the `[^;]+` capture non-empty: the match needs at
least one whitespace character, a semicolon at some index `j ≥ 2` after
`import`, and captures from `min(maximal whitespace, j - 1)` up to `j`. -/
def matchJavaImportAt (s : List Char) : Option (String × List Char) :=
  match dropLit "import".data s with
  | none => none
  | some r1 =>
    match r1 with
    | [] => none
    | c :: _ =>
      if !isSpaceChar c then none
      else
        match r1.findIdx? (fun ch => ch = ';') with
        | none => none
        | some j =>
          if j < 2 then none
          else
            let w := (r1.takeWhile isSpaceChar).length
            let k := min w (j - 1)
            some (String.mk ((r1.take j).drop k), r1.drop (j + 1))

/-- The scanning loop of `re.findall` collecting one capture per match. -/
def findallCaptures (matchAt : List Char → Option (String × List Char)) :
    Nat → List Char → List String
  | 0, _ => []
  | _ + 1, [] => []
  | fuel + 1, c :: t =>
    match matchAt (c :: t) with
    | some (capture, rest) => capture :: findallCaptures matchAt fuel rest
    | none => findallCaptures matchAt fuel t

/-- Result record of `analyze_java_file`. -/
structure JavaAnalysis where
  functions : List String
  classes : List String
  imports : List String
  deriving DecidableEq, Repr

/-- `analyze_java_file` (main.py lines 220-230): regex extraction of method
names, class names and import statements. -/
def analyze_java_file (content : String) : JavaAnalysis :=
  { functions :=
      findallCaptures matchJavaFuncAt (content.length + 1) content.data
    classes :=
      findallCaptures matchJavaClassAt (content.length + 1) content.data
    imports :=
      findallCaptures matchJavaImportAt (content.length + 1) content.data }

/-- Whether `kw` occurs as a contiguous substring. -/
def hasSubstr (kw : List Char) : List Char → Bool
  | [] => kw.isEmpty
  | c :: t => kw.isPrefixOf (c :: t) || hasSubstr kw t

/-- Everything of the specification document that precedes the generation
timestamp: a function of the title alone. -/
def projectMdPre (project_title : String) : String :=
  "# " ++ project_title ++ "\n\n## 📋 Project Overview\n\n**Generated on:** "

/-- Everything of the specification document that follows the generation
timestamp: independent of the clock. -/
def projectMdPost (messages : List Message) (teams : List String) : String :=
  "\n**Teams Involved:** " ++ String.intercalate ", " teams ++
  "\n**Status:** Active Development\n\n---\n\n## 🎯 Project Goals & Requirements\n\n" ++
  objectivesOf messages ++
  "## 👥 Team Analysis & Recommendations\n\n" ++
  teamAnalysisSections messages ++
  projectMdFooter

/-- Everything of the Cursor guide that precedes the generation
timestamp. -/
def cursorPre (project_title : String) : String :=
  "# Cursor IDE Development Guidelines for " ++ project_title ++ "\n\n## 📋 Project Context\n\n**Project:** " ++ project_title ++ "\n**Generated:** "

/-- Everything of the Cursor guide that follows the generation
timestamp. -/
def cursorPost (messages : List Message) (teams : List String) : String :=
  "\n**Teams:** " ++ String.intercalate ", " teams ++ "\n\n## 🎯 Development Objectives\n\n" ++
  objectivesOf messages ++
  cursorMiddle ++
  teamGuidelinesSection teams ++
  cursorFooter

/-- Everything of the manager summary that precedes the generation
timestamp. -/
def managerPre (project_title : String) : String :=
  "# 📊 Project Manager Summary: " ++ project_title ++ "\n\n## 📅 Executive Summary\n\n**Project:** " ++ project_title ++ "\n**Date:** "

/-- Everything of the manager summary that follows the generation
timestamp. -/
def managerPost (messages : List Message) (teams : List String) : String :=
  "\n**Status:** Analysis Complete\n**Team Size:** " ++ toString teams.length ++ " specialists\n\n---\n\n## 🎯 Project Objectives & Scope\n\n" ++
  objectivesOf messages ++
  "## 👥 Team Contributions Overview\n\n" ++
  teamStatsSections messages ++
  managerMiddle ++
  managerChecklist teams ++
  managerFooter

/-- First-appearance order of a list of tags: the key order a Python dict
acquires when fed these keys in sequence.  Spec-side description used to
state the grouping claim. -/
def firstSeen (tags : List String) : List String :=
  tags.foldl (fun acc t => if t ∈ acc then acc else acc ++ [t]) []

/-- Contents recorded under a team key in a grouping, first matching key
(keys are unique by construction). -/
def lookupTeam (groups : List (String × List String)) (t : String) :
    List String :=
  match groups.find? (fun p => p.1 = t) with
  | some p => p.2
  | none => []
/-- Invariant of the auto-discussion loop: the messages after the initial
user message are assistant turns whose team tags follow the strict
round-robin order over the selected team list. -/
def roundRobinTail (T : List String) (tail : List Message) : Prop :=
  (∀ m ∈ tail, m.role = "assistant") ∧
  tail.map (fun m => m.model) =
    (List.range tail.length).map (fun k => T.getD (k % T.length) "")

/-! ## Helper lemmas -/

theorem string_append_left_cancel {a s1 s2 : String} (h : a ++ s1 = a ++ s2) :
    s1 = s2 := by
  have hd : a.data ++ s1.data = a.data ++ s2.data := congrArg String.data h
  exact congrArg String.mk (List.append_cancel_left hd)

theorem aiCount_append_tagged (msgs : List Message) (m : Message)
    (h : m.model ≠ "") : aiCount (msgs ++ [m]) = aiCount msgs + 1 := by
  simp [aiCount, List.filter_append, h]

theorem aiCount_cons_untagged (m0 : Message) (tail : List Message)
    (h : m0.model = "") : aiCount (m0 :: tail) = aiCount tail := by
  simp [aiCount, List.filter_cons, h]

theorem mem_available_teams_ne_empty :
    ∀ t ∈ available_teams, t ≠ "" := by decide

theorem roundRobinTail_nil (T : List String) : roundRobinTail T [] := by
  simp [roundRobinTail]

theorem roundRobinTail_models_ne (T : List String) (hT : T ≠ [])
    (hTn : ∀ t ∈ T, t ≠ "") (tail : List Message)
    (hrr : roundRobinTail T tail) : ∀ m ∈ tail, m.model ≠ "" := by
  intro m hm
  have hmem : m.model ∈ tail.map (fun m => m.model) :=
    List.mem_map_of_mem _ hm
  rw [hrr.2] at hmem
  rcases List.mem_map.mp hmem with ⟨k, _, hk⟩
  have hlt : k % T.length < T.length :=
    Nat.mod_lt _ (List.length_pos.mpr hT)
  rw [List.getD_eq_getElem _ _ hlt] at hk
  exact hk ▸ hTn _ (List.getElem_mem _)

theorem aiCount_of_roundRobin (T : List String) (hT : T ≠ [])
    (hTn : ∀ t ∈ T, t ≠ "") (m0 : Message) (hm0 : m0.model = "")
    (tail : List Message) (hrr : roundRobinTail T tail) :
    aiCount (m0 :: tail) = tail.length := by
  rw [aiCount_cons_untagged _ _ hm0]
  unfold aiCount
  rw [List.filter_eq_self.mpr, ]
  intro m hm
  simpa using roundRobinTail_models_ne T hT hTn tail hrr m hm
theorem autoStep_progress (T : List String) (R : Nat) (is_file : Bool)
    (style : String) (oracle : List CtxMsg → String → LLMResult)
    (hT : T ≠ []) (hTn : ∀ t ∈ T, t ≠ "") (m0 : Message)
    (hm0 : m0.model = "") (tail : List Message)
    (hrr : roundRobinTail T tail) (hlt : tail.length < R * T.length) :
    ∃ resp : String,
      autoStep T R is_file style oracle ⟨m0 :: tail, true⟩ =
        some ⟨m0 :: (tail ++
          [⟨"assistant", resp, T.getD (tail.length % T.length) ""⟩]), true⟩ ∧
      roundRobinTail T (tail ++
        [⟨"assistant", resp, T.getD (tail.length % T.length) ""⟩]) := by
  have hcnt : aiCount (m0 :: tail) = tail.length :=
    aiCount_of_roundRobin T hT hTn m0 hm0 tail hrr
  refine ⟨call_openai (oracle (buildContext m0 tail)
    (systemPromptFor (T.getD (tail.length % T.length) "") is_file style)), ?_, ?_, ?_⟩
  · unfold autoStep
    simp only [hcnt]
    rw [if_pos, if_pos hlt]
    · simp [hcnt]
    · simp [List.isEmpty_eq_false_iff_exists_mem, hT]
  · intro m hm
    rcases List.mem_append.mp hm with h | h
    · exact hrr.1 m h
    · simp at h
      rw [h]
  · rw [List.map_append, hrr.2, List.length_append]
    simp [List.range_succ]
theorem runSteps_progress (T : List String) (R : Nat) (is_file : Bool)
    (style : String) (oracle : List CtxMsg → String → LLMResult)
    (hT : T ≠ []) (hTn : ∀ t ∈ T, t ≠ "") (m0 : Message)
    (hm0 : m0.model = "") :
    ∀ (j : Nat) (tail : List Message), roundRobinTail T tail →
      tail.length + j ≤ R * T.length →
      ∃ tail2 : List Message,
        runSteps T R is_file style oracle j ⟨m0 :: tail, true⟩ =
          some ⟨m0 :: tail2, true⟩ ∧
        roundRobinTail T tail2 ∧ tail2.length = tail.length + j := by
  intro j
  induction j with
  | zero =>
    intro tail hrr _
    exact ⟨tail, rfl, hrr, rfl⟩
  | succ n ih =>
    intro tail hrr hle
    have hlt : tail.length < R * T.length := by omega
    obtain ⟨resp, hstep, hrr2⟩ :=
      autoStep_progress T R is_file style oracle hT hTn m0 hm0 tail hrr hlt
    obtain ⟨tail2, hrun, hrr3, hlen⟩ :=
      ih (tail ++ [⟨"assistant", resp, T.getD (tail.length % T.length) ""⟩])
        hrr2 (by simp; omega)
    refine ⟨tail2, ?_, hrr3, by simp at hlen; omega⟩
    rw [runSteps, hstep]
    exact hrun
theorem filter_tagged_of_roundRobin (T : List String) (hT : T ≠ [])
    (hTn : ∀ t ∈ T, t ≠ "") (m0 : Message) (hm0 : m0.model = "")
    (tail : List Message) (hrr : roundRobinTail T tail) :
    (m0 :: tail).filter (fun m => m.model != "") = tail := by
  rw [List.filter_cons]
  simp only [hm0]
  simp only [bne_self_eq_false, if_false]
  exact List.filter_eq_self.mpr fun m hm => by
    simpa using roundRobinTail_models_ne T hT hTn tail hrr m hm

/-- C1: for every team list T with 1 ≤ |T| ≤ 7 drawn from the catalog and
every round count R with 1 ≤ R ≤ 10, running the auto-discussion loop for
R * |T| turns from the freshly started state succeeds and yields exactly
R * |T| team-tagged assistant messages; the following pass flips the state
to Complete (`discussion_active = False`) without adding a message; and the
k-th tagged assistant message (0-indexed) is attributed to team
T[k mod |T|] — a strict round robin with no skipping, repetition or
randomness, whatever the LLM returns on each turn. -/
theorem c1_round_robin (T : List String) (R : Nat) (is_file : Bool)
    (style content : String) (oracle : List CtxMsg → String → LLMResult)
    (hT1 : 1 ≤ T.length) (hT7 : T.length ≤ 7)
    (hTc : ∀ t ∈ T, t ∈ available_teams) (hR1 : 1 ≤ R) (hR10 : R ≤ 10) :
    ∃ final : DiscState,
      runSteps T R is_file style oracle (R * T.length)
        ⟨[⟨"user", content, ""⟩], true⟩ = some final ∧
      final.active = true ∧
      aiCount final.messages = R * T.length ∧
      autoStep T R is_file style oracle final = some ⟨final.messages, false⟩ ∧
      ∀ k : Nat, k < R * T.length →
        ((final.messages.filter (fun m => m.model != "")).map
          (fun m => m.model)).getD k "" = T.getD (k % T.length) "" := by
  have hT : T ≠ [] := by
    intro h
    rw [h] at hT1
    simp at hT1
  have hTn : ∀ t ∈ T, t ≠ "" := fun t ht =>
    mem_available_teams_ne_empty t (hTc t ht)
  obtain ⟨tail2, hrun, hrr, hlen⟩ :=
    runSteps_progress T R is_file style oracle hT hTn
      ⟨"user", content, ""⟩ rfl (R * T.length) [] (roundRobinTail_nil T)
      (by simp)
  simp only [List.length_nil, Nat.zero_add] at hlen
  have hfilter : ((⟨"user", content, ""⟩ :: tail2).filter
      (fun m => m.model != "")) = tail2 :=
    filter_tagged_of_roundRobin T hT hTn _ rfl tail2 hrr
  have hcnt : aiCount (⟨"user", content, ""⟩ :: tail2) = tail2.length :=
    aiCount_of_roundRobin T hT hTn _ rfl tail2 hrr
  refine ⟨⟨⟨"user", content, ""⟩ :: tail2, true⟩, hrun, rfl, ?_, ?_, ?_⟩
  · rw [hcnt, hlen]
  · unfold autoStep
    rw [if_pos, if_neg]
    · rw [hcnt, hlen]
      simp
    · simp [List.isEmpty_eq_false_iff_exists_mem, hT]
  · intro k hk
    rw [hfilter, hrr.2, hlen]
    rw [List.getD_eq_getElem _ _ (by simpa using hk)]
    simp
/-- Witness for C1 at teams = [Frontend Dev, Backend Dev], rounds = 1. -/
theorem c1_round_robin_witness :
    (1 ≤ (["Frontend Dev", "Backend Dev"] : List String).length) ∧
    (["Frontend Dev", "Backend Dev"] : List String).length ≤ 7 ∧
    (∀ t ∈ (["Frontend Dev", "Backend Dev"] : List String),
      t ∈ available_teams) ∧
    (∃ final : DiscState,
      runSteps ["Frontend Dev", "Backend Dev"] 1 false "Collaborative"
        (fun _ _ => LLMResult.ok "Sounds good.")
        (1 * (["Frontend Dev", "Backend Dev"] : List String).length)
        ⟨[⟨"user", "Build a web app", ""⟩], true⟩ = some final ∧
      final.active = true ∧
      aiCount final.messages =
        1 * (["Frontend Dev", "Backend Dev"] : List String).length ∧
      autoStep ["Frontend Dev", "Backend Dev"] 1 false "Collaborative"
        (fun _ _ => LLMResult.ok "Sounds good.") final =
          some ⟨final.messages, false⟩ ∧
      ∀ k : Nat, k < 1 * (["Frontend Dev", "Backend Dev"] : List String).length →
        ((final.messages.filter (fun m => m.model != "")).map
          (fun m => m.model)).getD k "" =
        (["Frontend Dev", "Backend Dev"] : List String).getD
          (k % (["Frontend Dev", "Backend Dev"] : List String).length) "") :=
  ⟨by decide, by decide, by decide,
    c1_round_robin ["Frontend Dev", "Backend Dev"] 1 false "Collaborative"
      "Build a web app" (fun _ _ => LLMResult.ok "Sounds good.")
      (by decide) (by decide) (by decide) (by decide) (by decide)⟩

/-- C2: on a turn whose LLM call raises (any exception text e), the
orchestrator still appends one assistant message tagged with the scheduled
round-robin team, whose content is the deterministic error string
`"OpenAI Error: " ++ e`; the assistant count increments by exactly one, no
retry happens (exactly one message is appended), and the step returns
normally instead of propagating the exception. -/
theorem c2_llm_failure (T : List String) (R : Nat) (is_file : Bool)
    (style e : String) (m0 : Message) (rest : List Message)
    (hT : T ≠ []) (hTn : ∀ t ∈ T, t ≠ "")
    (hlt : aiCount (m0 :: rest) < R * T.length) :
    autoStep T R is_file style (fun _ _ => LLMResult.err e)
        ⟨m0 :: rest, true⟩ =
      some ⟨(m0 :: rest) ++
        [⟨"assistant", "OpenAI Error: " ++ e,
          T.getD (aiCount (m0 :: rest) % T.length) ""⟩], true⟩ ∧
    aiCount ((m0 :: rest) ++
        [⟨"assistant", "OpenAI Error: " ++ e,
          T.getD (aiCount (m0 :: rest) % T.length) ""⟩]) =
      aiCount (m0 :: rest) + 1 := by
  constructor
  · unfold autoStep
    rw [if_pos, if_pos hlt]
    · rfl
    · simp [List.isEmpty_eq_false_iff_exists_mem, hT]
  · apply aiCount_append_tagged
    have hmod : aiCount (m0 :: rest) % T.length < T.length :=
      Nat.mod_lt _ (List.length_pos.mpr hT)
    rw [List.getD_eq_getElem _ _ hmod]
    exact hTn _ (List.getElem_mem _)

/-- Witness for C2: a network-style failure on the very first turn. -/
theorem c2_llm_failure_witness :
    (["Frontend Dev"] : List String) ≠ [] ∧
    aiCount [⟨"user", "p", ""⟩] < 1 * (["Frontend Dev"] : List String).length ∧
    (autoStep ["Frontend Dev"] 1 false "Debate"
        (fun _ _ => LLMResult.err "Connection error.")
        ⟨[⟨"user", "p", ""⟩], true⟩ =
      some ⟨[⟨"user", "p", ""⟩] ++
        [⟨"assistant", "OpenAI Error: " ++ "Connection error.",
          (["Frontend Dev"] : List String).getD
            (aiCount [⟨"user", "p", ""⟩] %
              (["Frontend Dev"] : List String).length) ""⟩], true⟩ ∧
    aiCount ([⟨"user", "p", ""⟩] ++
        [⟨"assistant", "OpenAI Error: " ++ "Connection error.",
          (["Frontend Dev"] : List String).getD
            (aiCount [⟨"user", "p", ""⟩] %
              (["Frontend Dev"] : List String).length) ""⟩]) =
      aiCount [⟨"user", "p", ""⟩] + 1) :=
  ⟨by decide, by decide,
    c2_llm_failure ["Frontend Dev"] 1 false "Debate" "Connection error."
      ⟨"user", "p", ""⟩ [] (by decide) (by decide) (by decide)⟩
theorem buildContext_go (rest : List Message) :
    ∀ acc : List CtxMsg,
      rest.foldl
        (fun acc msg =>
          if msg.model != "" then acc ++ [⟨"assistant", msg.content⟩]
          else acc) acc =
      acc ++ (rest.filter (fun m => m.model != "")).map
        (fun m => (⟨"assistant", m.content⟩ : CtxMsg)) := by
  induction rest with
  | nil => intro acc; simp
  | cons m t ih =>
    intro acc
    rw [List.foldl_cons, List.filter_cons]
    cases h : m.model != "" with
    | true => rw [if_pos rfl, ih, if_pos rfl]; simp
    | false => rw [if_neg (by simp), ih, if_neg (by simp)]

/-- C3: on every in-progress turn the payload sent to the LLM is exactly
the content of message 0 with role user, followed by the contents of all
prior team-tagged messages in chronological order with role assistant and
no team attribution; the whole history is replayed (no window) and
untagged messages after message 0 are excluded.  The second conjunct pins
this to the step: the appended turn is the adapter output on precisely
that payload and the composed system prompt. -/
theorem c3_history_payload (m0 : Message) (rest : List Message) :
    buildContext m0 rest =
      ⟨"user", m0.content⟩ :: (rest.filter (fun m => m.model != "")).map
        (fun m => (⟨"assistant", m.content⟩ : CtxMsg)) ∧
    ∀ (T : List String) (R : Nat) (is_file : Bool) (style : String)
      (oracle : List CtxMsg → String → LLMResult), T ≠ [] →
      aiCount (m0 :: rest) < R * T.length →
      autoStep T R is_file style oracle ⟨m0 :: rest, true⟩ =
        some ⟨(m0 :: rest) ++
          [⟨"assistant",
            call_openai (oracle
              (⟨"user", m0.content⟩ ::
                (rest.filter (fun m => m.model != "")).map
                  (fun m => (⟨"assistant", m.content⟩ : CtxMsg)))
              (systemPromptFor (T.getD (aiCount (m0 :: rest) % T.length) "")
                is_file style)),
            T.getD (aiCount (m0 :: rest) % T.length) ""⟩], true⟩ := by
  have hbc : buildContext m0 rest =
      ⟨"user", m0.content⟩ :: (rest.filter (fun m => m.model != "")).map
        (fun m => (⟨"assistant", m.content⟩ : CtxMsg)) := by
    unfold buildContext
    rw [buildContext_go]
    rfl
  refine ⟨hbc, ?_⟩
  intro T R is_file style oracle hT hlt
  unfold autoStep
  rw [if_pos, if_pos hlt]
  · rw [← hbc]
  · simp [List.isEmpty_eq_false_iff_exists_mem, hT]

/-- Witness for C3: a three-message history with one untagged status
message, replayed for the second team of a two-team discussion. -/
theorem c3_history_payload_witness :
    (buildContext ⟨"user", "p", ""⟩
        [⟨"assistant", "idea", "Frontend Dev"⟩, ⟨"user", "note", ""⟩] =
      ⟨"user", "p"⟩ ::
        (([⟨"assistant", "idea", "Frontend Dev"⟩,
           ⟨"user", "note", ""⟩] : List Message).filter
          (fun m => m.model != "")).map
          (fun m => (⟨"assistant", m.content⟩ : CtxMsg))) ∧
    ((["Frontend Dev", "Backend Dev"] : List String) ≠ [] ∧
      aiCount (⟨"user", "p", ""⟩ ::
        [⟨"assistant", "idea", "Frontend Dev"⟩, ⟨"user", "note", ""⟩]) <
        2 * (["Frontend Dev", "Backend Dev"] : List String).length ∧
      autoStep ["Frontend Dev", "Backend Dev"] 2 false "Collaborative"
        (fun _ _ => LLMResult.ok "ack")
        ⟨⟨"user", "p", ""⟩ ::
          [⟨"assistant", "idea", "Frontend Dev"⟩, ⟨"user", "note", ""⟩],
          true⟩ =
        some ⟨(⟨"user", "p", ""⟩ ::
          [⟨"assistant", "idea", "Frontend Dev"⟩, ⟨"user", "note", ""⟩]) ++
          [⟨"assistant",
            call_openai ((fun (_ : List CtxMsg) (_ : String) =>
                LLMResult.ok "ack")
              (⟨"user", "p"⟩ ::
                (([⟨"assistant", "idea", "Frontend Dev"⟩,
                   ⟨"user", "note", ""⟩] : List Message).filter
                  (fun m => m.model != "")).map
                  (fun m => (⟨"assistant", m.content⟩ : CtxMsg)))
              (systemPromptFor
                ((["Frontend Dev", "Backend Dev"] : List String).getD
                  (aiCount (⟨"user", "p", ""⟩ ::
                    [⟨"assistant", "idea", "Frontend Dev"⟩,
                     ⟨"user", "note", ""⟩]) %
                    (["Frontend Dev", "Backend Dev"] : List String).length)
                  "") false "Collaborative")),
            (["Frontend Dev", "Backend Dev"] : List String).getD
              (aiCount (⟨"user", "p", ""⟩ ::
                [⟨"assistant", "idea", "Frontend Dev"⟩,
                 ⟨"user", "note", ""⟩]) %
                (["Frontend Dev", "Backend Dev"] : List String).length)
              ""⟩], true⟩) :=
  ⟨(c3_history_payload ⟨"user", "p", ""⟩
      [⟨"assistant", "idea", "Frontend Dev"⟩, ⟨"user", "note", ""⟩]).1,
    by decide, by decide,
    (c3_history_payload ⟨"user", "p", ""⟩
      [⟨"assistant", "idea", "Frontend Dev"⟩, ⟨"user", "note", ""⟩]).2
      ["Frontend Dev", "Backend Dev"] 2 false "Collaborative"
      (fun _ _ => LLMResult.ok "ack") (by decide) (by decide)⟩
/-- C9 (implicit): the per-turn step is total exactly when the message list
is non-empty (it unconditionally indexes the last and the first message).
The start handler flips `discussion_active` to true before checking
persistence and appends the initial user message only when persistence
succeeded, so when persistence fails at start the state becomes active
with an empty message list, and the next pass fails on out-of-bounds
indexing (modelled by `none`) rather than degrading gracefully. -/
theorem c9_start_persistence_failure (project_content : String)
    (T : List String) (R : Nat) (is_file : Bool) (style : String)
    (oracle : List CtxMsg → String → LLMResult)
    (hT : T ≠ []) (hR : 1 ≤ R) :
    startDiscussion true true T true false project_content ⟨[], false⟩ =
      ⟨[], true⟩ ∧
    autoStep T R is_file style oracle ⟨[], true⟩ = none ∧
    ∀ s : DiscState, s.messages ≠ [] →
      (autoStep T R is_file style oracle s).isSome = true := by
  have hTpos : 0 < T.length := List.length_pos.mpr hT
  have hpos : 0 < R * T.length := Nat.mul_pos hR hTpos
  refine ⟨?_, ?_, ?_⟩
  · unfold startDiscussion
    rw [if_pos (by simp [List.isEmpty_eq_false_iff_exists_mem, hT])]
    rfl
  · unfold autoStep
    rw [if_pos (by simp [List.isEmpty_eq_false_iff_exists_mem, hT]),
      if_pos (by simpa [aiCount] using hpos)]
  · intro s hs
    unfold autoStep
    by_cases hact : (s.active && !T.isEmpty) = true
    · rw [if_pos hact]
      by_cases hlt : aiCount s.messages < R * T.length
      · rw [if_pos hlt]
        cases hm : s.messages with
        | nil => exact absurd hm hs
        | cons m0 rest => simp
      · rw [if_neg hlt]
        simp
    · rw [if_neg hact]
      simp

/-- Witness for C9: one team, one round, persistence failing at start. -/
theorem c9_start_persistence_failure_witness :
    (["Frontend Dev"] : List String) ≠ [] ∧ 1 ≤ 1 ∧
    (startDiscussion true true ["Frontend Dev"] true false "p" ⟨[], false⟩ =
      ⟨[], true⟩ ∧
    autoStep ["Frontend Dev"] 1 false "Collaborative"
      (fun _ _ => LLMResult.ok "hi") ⟨[], true⟩ = none ∧
    ∀ s : DiscState, s.messages ≠ [] →
      (autoStep ["Frontend Dev"] 1 false "Collaborative"
        (fun _ _ => LLMResult.ok "hi") s).isSome = true) :=
  ⟨by decide, by decide,
    c9_start_persistence_failure "p" ["Frontend Dev"] 1 false "Collaborative"
      (fun _ _ => LLMResult.ok "hi") (by decide) (by decide)⟩

/-- C8: the project type is decided by checking python, then javascript,
then java in that fixed order and declaring the first language whose file
count strictly exceeds 30 percent of the total file count; if none does,
the type is unknown. -/
theorem c8_project_type (languages : String → Nat) (total_files : Nat) :
    determineProjectType languages total_files =
      projectTypeSpec languages total_files := by
  unfold determineProjectType projectTypeSpec
  by_cases h1 : 10 * languages "python" > 3 * total_files <;>
    by_cases h2 : 10 * languages "javascript" > 3 * total_files <;>
      by_cases h3 : 10 * languages "java" > 3 * total_files <;>
        simp [h1, h2, h3, List.find?]
theorem projectMd_factorization (messages : List Message) (title : String)
    (teams : List String) (now : String) :
    generate_project_md_file messages title teams now =
      projectMdPre title ++ now ++ projectMdPost messages teams := by
  simp only [generate_project_md_file, projectMdPre, projectMdPost,
    String.append_assoc]

theorem cursor_factorization (messages : List Message) (title : String)
    (teams : List String) (now : String) :
    generate_cursor_prompt_file messages title teams now =
      cursorPre title ++ now ++ cursorPost messages teams := by
  simp only [generate_cursor_prompt_file, cursorPre, cursorPost,
    String.append_assoc]

theorem manager_factorization (messages : List Message) (title : String)
    (teams : List String) (now : String) :
    generate_manager_summary messages title teams now =
      managerPre title ++ now ++ managerPost messages teams := by
  simp only [generate_manager_summary, managerPre, managerPost,
    String.append_assoc]

/-- C5: each of the three generators is a pure function of the message
list, title, team list and the single clock reading `now`; the output
factors as a title-determined segment, then `now`, then a clock-independent
remainder, so the generation timestamp in the header is the only clock
dependency, two runs with the same inputs and clock are byte-identical, and
there is no other source of nondeterminism. -/
theorem c5_generator_determinism (messages : List Message) (title : String)
    (teams : List String) (now : String) :
    generate_project_md_file messages title teams now =
      projectMdPre title ++ now ++ projectMdPost messages teams ∧
    generate_cursor_prompt_file messages title teams now =
      cursorPre title ++ now ++ cursorPost messages teams ∧
    generate_manager_summary messages title teams now =
      managerPre title ++ now ++ managerPost messages teams :=
  ⟨projectMd_factorization messages title teams now,
   cursor_factorization messages title teams now,
   manager_factorization messages title teams now⟩
theorem insertContribution_map_fst (acc : List (String × List String))
    (team content : String) :
    (insertContribution acc team content).map Prod.fst =
      if team ∈ acc.map Prod.fst then acc.map Prod.fst
      else acc.map Prod.fst ++ [team] := by
  induction acc with
  | nil => simp [insertContribution]
  | cons p rest ih =>
    obtain ⟨t, cs⟩ := p
    by_cases h : t = team
    · subst h
      simp [insertContribution]
    · rw [insertContribution]
      rw [if_neg h]
      simp only [List.map_cons, ih]
      by_cases hmem : team ∈ rest.map Prod.fst
      · rw [if_pos hmem, if_pos]
        simp [hmem]
      · rw [if_neg hmem, if_neg]
        · simp
        · simp [hmem]
          exact fun he => h he.symm

theorem team_contributions_go_map_fst (l : List Message) :
    ∀ acc : List (String × List String),
      (l.foldl
        (fun acc msg =>
          if msg.model != "" then insertContribution acc msg.model msg.content
          else acc) acc).map Prod.fst =
      ((l.filter (fun m => m.model != "")).map (fun m => m.model)).foldl
        (fun a t => if t ∈ a then a else a ++ [t]) (acc.map Prod.fst) := by
  induction l with
  | nil => intro acc; simp
  | cons m t ih =>
    intro acc
    rw [List.foldl_cons, List.filter_cons]
    cases h : m.model != "" with
    | true =>
      rw [if_pos rfl, ih, insertContribution_map_fst]
      simp
    | false =>
      rw [if_neg (by simp)]
      simp only [Bool.false_eq_true, if_false]
      exact ih acc

theorem lookupTeam_cons (a : String) (b : List String)
    (rest : List (String × List String)) (t : String) :
    lookupTeam ((a, b) :: rest) t = if a = t then b else lookupTeam rest t := by
  by_cases h : a = t
  · simp [lookupTeam, List.find?, h]
  · simp [lookupTeam, List.find?, h]

theorem lookupTeam_insert (acc : List (String × List String))
    (team content t : String) :
    lookupTeam (insertContribution acc team content) t =
      if t = team then lookupTeam acc t ++ [content] else lookupTeam acc t := by
  have hnil : lookupTeam [] t = [] := rfl
  induction acc with
  | nil =>
    rw [insertContribution, lookupTeam_cons]
    by_cases h : t = team
    · rw [if_pos h.symm, if_pos h, hnil]
      rfl
    · rw [if_neg (fun he => h he.symm), if_neg h]
  | cons p rest ih =>
    obtain ⟨t2, cs⟩ := p
    rw [insertContribution]
    by_cases ht : t = team
    · rw [if_pos ht]
      by_cases h2 : t2 = team
      · rw [if_pos h2, lookupTeam_cons, lookupTeam_cons]
        by_cases h : t2 = t
        · rw [if_pos h, if_pos h]
        · exact absurd (h2.trans ht.symm) h
      · rw [if_neg h2, lookupTeam_cons, lookupTeam_cons]
        by_cases h : t2 = t
        · exact absurd (h.trans ht) h2
        · rw [if_neg h, if_neg h, ih, if_pos ht]
    · rw [if_neg ht]
      by_cases h2 : t2 = team
      · rw [if_pos h2, lookupTeam_cons, lookupTeam_cons]
        by_cases h : t2 = t
        · exact absurd (h2.symm.trans h).symm ht
        · rw [if_neg h, if_neg h]
      · rw [if_neg h2, lookupTeam_cons, lookupTeam_cons]
        by_cases h : t2 = t
        · rw [if_pos h, if_pos h]
        · rw [if_neg h, if_neg h, ih, if_neg ht]

theorem team_contributions_go_lookup (l : List Message) :
    ∀ acc : List (String × List String), ∀ t : String, t ≠ "" →
      lookupTeam (l.foldl
        (fun acc msg =>
          if msg.model != "" then insertContribution acc msg.model msg.content
          else acc) acc) t =
      lookupTeam acc t ++ (l.filter (fun m => m.model == t)).map
        (fun m => m.content) := by
  induction l with
  | nil => intro acc t _; simp
  | cons m rest ih =>
    intro acc t ht
    rw [List.foldl_cons, List.filter_cons]
    cases h : m.model != "" with
    | true =>
      rw [if_pos rfl, ih _ t ht, lookupTeam_insert]
      by_cases he : t = m.model
      · rw [if_pos he]
        have hb : (m.model == t) = true := beq_iff_eq.mpr he.symm
        rw [hb, if_pos rfl]
        simp
      · rw [if_neg he]
        have hb : (m.model == t) = false :=
          beq_eq_false_iff_ne.mpr (fun hh => he hh.symm)
        rw [hb, if_neg (by simp)]
    | false =>
      have hm : m.model = "" := by simpa using h
      rw [if_neg (by simp [h])]
      have hb : (m.model == t) = false := by
        rw [hm]
        exact beq_eq_false_iff_ne.mpr (Ne.symm ht)
      rw [hb, if_neg (by simp)]
      exact ih acc t ht
/-- C4: the generators group assistant messages by team in first-appearance
order — the section keys equal the deduplicated tag sequence in order of
first occurrence, each team section lists exactly the messages of that team in
chronological order, and the contributions are numbered 1, 2, ... in
sequence (the zip with `range' 1` below). -/
theorem c4_grouping (messages : List Message) :
    (team_contributions messages).map Prod.fst =
      firstSeen (((messages.drop 1).filter (fun m => m.model != "")).map
        (fun m => m.model)) ∧
    (∀ t : String, t ≠ "" →
      lookupTeam (team_contributions messages) t =
        ((messages.drop 1).filter (fun m => m.model == t)).map
          (fun m => m.content)) ∧
    teamAnalysisSections messages =
      String.join ((team_contributions messages).map
        (fun p => "### 🔧 " ++ p.1 ++ " Analysis\n\n" ++
          String.join (((List.range' 1 p.2.length).zip p.2).map
            (fun ic => "#### Contribution " ++ toString ic.1 ++ "\n" ++
              ic.2 ++ "\n\n")))) := by
  refine ⟨?_, ?_, ?_⟩
  · unfold team_contributions firstSeen
    rw [team_contributions_go_map_fst]
    rfl
  · intro t ht
    unfold team_contributions
    rw [team_contributions_go_lookup _ _ t ht]
    have hnil : lookupTeam [] t = [] := rfl
    rw [hnil, List.nil_append]
  · unfold teamAnalysisSections renderContributions
    simp [List.enumFrom_eq_zip_range']

/-- Witness for C4 on tag order [B, A, B, A, C]: section order is [B, A, C]
and the B section collects exactly the B messages in order. -/
theorem c4_grouping_witness :
    ("Backend Dev" : String) ≠ "" ∧
    lookupTeam (team_contributions
      [⟨"user", "p", ""⟩,
       ⟨"assistant", "b1", "Backend Dev"⟩,
       ⟨"assistant", "a1", "AI Engineer"⟩,
       ⟨"assistant", "b2", "Backend Dev"⟩,
       ⟨"assistant", "a2", "AI Engineer"⟩,
       ⟨"assistant", "c1", "Frontend Dev"⟩]) "Backend Dev" =
      ((([⟨"user", "p", ""⟩,
       ⟨"assistant", "b1", "Backend Dev"⟩,
       ⟨"assistant", "a1", "AI Engineer"⟩,
       ⟨"assistant", "b2", "Backend Dev"⟩,
       ⟨"assistant", "a2", "AI Engineer"⟩,
       ⟨"assistant", "c1", "Frontend Dev"⟩] : List Message).drop 1).filter
        (fun m => m.model == "Backend Dev")).map (fun m => m.content) :=
  ⟨by decide,
    (c4_grouping
      [⟨"user", "p", ""⟩,
       ⟨"assistant", "b1", "Backend Dev"⟩,
       ⟨"assistant", "a1", "AI Engineer"⟩,
       ⟨"assistant", "b2", "Backend Dev"⟩,
       ⟨"assistant", "a2", "AI Engineer"⟩,
       ⟨"assistant", "c1", "Frontend Dev"⟩]).2.1 "Backend Dev" (by decide)⟩
/-- Counterexample to C6: run the claimed scenario — teams
[Frontend Dev, Backend Dev], one round, two successful LLM calls — then
invoke the generation pipeline with persistence succeeding.  Three files
are produced, but their kind tags are markdown, cursor_guide, markdown:
the specification and the manager summary share the tag, so the kind tags
are not pairwise distinct and do not identify the artifact. -/
theorem c6_counterexample :
    (runSteps ["Frontend Dev", "Backend Dev"] 1 false "Collaborative"
        (fun _ _ => LLMResult.ok "Sounds good.") 2
        ⟨[⟨"user", "Build a web app", ""⟩], true⟩).map
      (fun s =>
        ((generate_all_files true (fun _ => true) s.messages
            "Demo Project" ["Frontend Dev", "Backend Dev"]
            "2025-01-01 00:00:00").getD []).map (fun f => f.1)) =
      some ["markdown", "cursor_guide", "markdown"] ∧
    ¬ List.Pairwise (fun a b => a ≠ b)
      (["markdown", "cursor_guide", "markdown"] : List String) := by
  constructor
  · rfl
  · decide
/-- C6 (amended): after any completed discussion, invoking generation with
an active conversation and successful persistence produces exactly three
files — the specification, the Cursor IDE guide and the manager summary —
whose filenames carry the pairwise-distinct fixed suffixes
_Specification.md, _Cursor_Prompts.md and _Manager_Summary.md that identify
the artifact; their kind tags are markdown, cursor_guide and markdown
respectively, so the specification and the manager summary share a kind
tag. -/
theorem c6_three_files (messages : List Message) (project_title : String)
    (teams : List String) (now : String) :
    generate_all_files true (fun _ => true) messages project_title teams
        now =
      some [("markdown",
             project_title.replace " " "_" ++ "_Specification.md",
             generate_project_md_file messages project_title teams now),
            ("cursor_guide",
             project_title.replace " " "_" ++ "_Cursor_Prompts.md",
             generate_cursor_prompt_file messages project_title teams now),
            ("markdown",
             project_title.replace " " "_" ++ "_Manager_Summary.md",
             generate_manager_summary messages project_title teams now)] ∧
    project_title.replace " " "_" ++ "_Specification.md" ≠
      project_title.replace " " "_" ++ "_Cursor_Prompts.md" ∧
    project_title.replace " " "_" ++ "_Specification.md" ≠
      project_title.replace " " "_" ++ "_Manager_Summary.md" ∧
    project_title.replace " " "_" ++ "_Cursor_Prompts.md" ≠
      project_title.replace " " "_" ++ "_Manager_Summary.md" := by
  refine ⟨rfl, ?_, ?_, ?_⟩ <;>
    exact fun he => absurd (string_append_left_cancel he) (by decide)
/-- Counterexample to C7: a message list whose message 0 is not role user
but which contains a team-tagged message after position 0.  The generator
does not fail, but its analysis section is not empty — the tagged message
is still rendered — so the output differs from the document produced for
an empty message list (the document with empty objectives and empty
analysis the claim predicts). -/
theorem c7_counterexample :
    (([⟨"assistant", "use React", "Backend Dev"⟩,
       ⟨"assistant", "use Vue", "Frontend Dev"⟩] : List Message).head?.map
        (fun m => m.role) ≠ some "user") ∧
    teamAnalysisSections
      [⟨"assistant", "use React", "Backend Dev"⟩,
       ⟨"assistant", "use Vue", "Frontend Dev"⟩] ≠ "" ∧
    generate_project_md_file
      [⟨"assistant", "use React", "Backend Dev"⟩,
       ⟨"assistant", "use Vue", "Frontend Dev"⟩] "T" [] "ts" ≠
    generate_project_md_file [] "T" [] "ts" := by
  refine ⟨by decide, by decide, ?_⟩
  intro he
  have h1 := projectMd_factorization
    [⟨"assistant", "use React", "Backend Dev"⟩,
     ⟨"assistant", "use Vue", "Frontend Dev"⟩] "T" [] "ts"
  have h2 := projectMd_factorization [] "T" [] "ts"
  rw [h1, h2] at he
  have h3 := string_append_left_cancel
    (string_append_left_cancel (by simpa [String.append_assoc] using he))
  have h4 : projectMdPost
      [⟨"assistant", "use React", "Backend Dev"⟩,
       ⟨"assistant", "use Vue", "Frontend Dev"⟩] [] ≠
      projectMdPost [] [] := by decide
  exact h4 h3
/-- C7 (amended): for the empty message list, and for any list whose
message 0 does not have role user, every generator still returns the full
templated document without failing — the header, the timestamp and the
boilerplate are all present via the factorized form — and the objectives
section is empty.  The analysis sections render exactly the team-tagged
messages after position 0, so they are empty for the empty list but not in
general when message 0 is a tagged non-user message followed by tagged
messages. -/
theorem c7_degenerate_inputs (messages : List Message) (title : String)
    (teams : List String) (now : String)
    (h : messages.head?.map (fun m => m.role) ≠ some "user") :
    objectivesOf messages = "" ∧
    generate_project_md_file messages title teams now =
      projectMdPre title ++ now ++ projectMdPost messages teams ∧
    generate_cursor_prompt_file messages title teams now =
      cursorPre title ++ now ++ cursorPost messages teams ∧
    generate_manager_summary messages title teams now =
      managerPre title ++ now ++ managerPost messages teams ∧
    (messages = [] →
      teamAnalysisSections messages = "" ∧ teamStatsSections messages = "") := by
  refine ⟨?_, projectMd_factorization messages title teams now,
    cursor_factorization messages title teams now,
    manager_factorization messages title teams now, ?_⟩
  · cases messages with
    | nil => rfl
    | cons m0 rest =>
      show (if m0.role = "user" then m0.content ++ "\n\n" else "") = ""
      rw [if_neg]
      intro hr
      apply h
      simp [List.head?, hr]
  · intro hm
    subst hm
    exact ⟨rfl, rfl⟩

/-- Witness for C7 at the empty message list. -/
theorem c7_degenerate_inputs_witness :
    (([] : List Message).head?.map (fun m => m.role) ≠ some "user") ∧
    (objectivesOf [] = "" ∧
    generate_project_md_file [] "T" ["Frontend Dev"] "ts" =
      projectMdPre "T" ++ "ts" ++ projectMdPost [] ["Frontend Dev"] ∧
    generate_cursor_prompt_file [] "T" ["Frontend Dev"] "ts" =
      cursorPre "T" ++ "ts" ++ cursorPost [] ["Frontend Dev"] ∧
    generate_manager_summary [] "T" ["Frontend Dev"] "ts" =
      managerPre "T" ++ "ts" ++ managerPost [] ["Frontend Dev"] ∧
    (([] : List Message) = [] →
      teamAnalysisSections [] = "" ∧ teamStatsSections [] = "")) :=
  ⟨by decide,
    c7_degenerate_inputs [] "T" ["Frontend Dev"] "ts" (by decide)⟩
theorem dropLit_some_startsWith (kw : List Char) :
    ∀ s r : List Char, dropLit kw s = some r → kw.isPrefixOf s = true := by
  induction kw with
  | nil => intro s r _; simp [List.isPrefixOf]
  | cons k ks ih =>
    intro s r h
    cases s with
    | nil => exact absurd h (by simp [dropLit])
    | cons c cs =>
      rw [dropLit] at h
      by_cases he : k = c
      · rw [if_pos he] at h
        simp [List.isPrefixOf, he, ih cs r h]
      · rw [if_neg he] at h
        exact absurd h (by simp)

theorem matchKwFuncAt_none (kw s : List Char)
    (h : kw.isPrefixOf s = false) : matchKwFuncAt kw s = none := by
  unfold matchKwFuncAt
  cases hd : dropLit kw s with
  | none => rfl
  | some r => exact absurd (dropLit_some_startsWith kw s r hd) (by simp [h])

theorem findallCount_eq_zero (kw : List Char) :
    ∀ (fuel : Nat) (s : List Char), hasSubstr kw s = false →
      findallCount (matchKwFuncAt kw) fuel s = 0 := by
  intro fuel
  induction fuel with
  | zero => intro s _; rfl
  | succ n ih =>
    intro s h
    cases s with
    | nil => rfl
    | cons c t =>
      rw [hasSubstr] at h
      have h2 := Bool.or_eq_false_iff.mp h
      rw [findallCount, matchKwFuncAt_none kw _ h2.1]
      exact ih t h2.2

/-- C10: the function term of the complexity score counts matches of
`function\s+\w+` whenever the language is not python, independently of the
per-language extractors; so for Java content that never contains the
literal keyword `function` the function term is 0, even on content for
which `analyze_java_file` extracts a non-empty method list (witnessed by a
one-method Java snippet). -/
theorem c10_function_term :
    (∀ content : String,
      hasSubstr "function".data content.data = false →
      functionTermCount content "java" = 0) ∧
    (analyze_java_file "public int getValue() \x7b return 1; \x7d").functions =
      ["getValue"] ∧
    hasSubstr "function".data
      ("public int getValue() \x7b return 1; \x7d").data = false ∧
    functionTermCount "public int getValue() \x7b return 1; \x7d" "java" =
      0 := by
  refine ⟨?_, ?_, ?_, ?_⟩
  · intro content h
    have hj : functionTermCount content "java" =
        findallCount (matchKwFuncAt "function".data) (content.length + 1)
          content.data := rfl
    rw [hj]
    exact findallCount_eq_zero _ _ _ h
  · rfl
  · decide
  · decide

/-- Witness for C10 on a Java class declaration with no methods. -/
theorem c10_function_term_witness :
    hasSubstr "function".data ("class Foo").data = false ∧
    functionTermCount "class Foo" "java" = 0 :=
  ⟨by decide, c10_function_term.1 "class Foo" (by decide)⟩
